import Mathlib

/-!
Shallow embedding of the analytics core of `src/app.py`, a Streamlit stock
dashboard.  The pure data transformations of the Python/pandas code are
modelled as Lean functions:

* `get_historical` models the body of `get_historical` (lines 47-69): it takes
  the HTTP response status and the optional value of the `"historical"` key of
  the response body (`none` models a body without that key) and returns either
  a pandas-style error or the list of DataFrame rows.  `pd.DataFrame(records)`
  fills a missing key of a record with `NaN`, modelled by `Option`-valued
  cells; `pd.to_datetime` raises on an unparseable date string (and raises a
  `KeyError` when no record at all carries a `date` key, since then the
  DataFrame has no `date` column); `sort_values("date")` is modelled by a
  stable insertion sort on the date key with missing dates (`NaT`) placed
  last, pandas' `na_position="last"` default.
* `rolling_mean` models `Series.rolling(window=w).mean()`: entry `i` is
  defined iff `i + 1 ≥ w` and every cell of the window is non-missing
  (pandas' default `min_periods = window`), and then equals the arithmetic
  mean of the window.
* `create_moving_average_chart`, `create_candlestick_chart`, `display_charts`
  and `display_metrics` model the chart/display functions of the same names;
  `dfTail` models `DataFrame.tail`.
* `main_quote` models the quote dispatch of `main` (lines 264-275): the first
  payload element is displayed when the payload is a non-empty list, otherwise
  the app takes the error-message branch and produces no metrics record.

Machine reals are modelled by `Rat` (exact arithmetic), dates by their ordinal
as `Int`.
-/

/-- A cell of a pandas DataFrame built from JSON records: a number, or a
string kept verbatim (building a DataFrame from records never parses numeric
strings). -/
inductive Cell where
  | num (q : Rat)
  | str (s : String)
deriving Repr, DecidableEq

/-- The raw `date` entry of a historical record: a string that
`pd.to_datetime` either parses to a calendar date (represented by its ordinal)
or rejects with a `ValueError`. -/
inductive DateVal where
  | parsable (d : Int)
  | unparsable
deriving Repr, DecidableEq

/-- One record of the `"historical"` array of the API payload.  A `none`
field models a record that lacks that key. -/
structure RawRecord where
  date : Option DateVal
  «open» : Option Cell
  high : Option Cell
  low : Option Cell
  close : Option Cell
  volume : Option Cell
deriving Repr, DecidableEq

/-- One row of the DataFrame returned by `get_historical`, after
`pd.to_datetime` ran over the `date` column: `date = none` models `NaT`,
a `none` cell models `NaN`. -/
structure Row where
  date : Option Int
  «open» : Option Cell
  high : Option Cell
  low : Option Cell
  close : Option Cell
  volume : Option Cell
deriving Repr, DecidableEq

/-- Sort key used by `sort_values("date")`: missing dates (`NaT`) compare
last, pandas' `na_position="last"` default. -/
def dkey : Option Int → WithTop Int
  | none => ⊤
  | some d => (d : WithTop Int)

/-- Weak date order on DataFrame rows, the comparison of `sort_values`. -/
def rowLE (a b : Row) : Prop := dkey a.date ≤ dkey b.date

/-- Strict date order on DataFrame rows. -/
def rowLT (a b : Row) : Prop := dkey a.date < dkey b.date

instance : DecidableRel rowLE := fun a b =>
  inferInstanceAs (Decidable (dkey a.date ≤ dkey b.date))

instance : DecidableRel rowLT := fun a b =>
  inferInstanceAs (Decidable (dkey a.date < dkey b.date))

instance : IsTotal Row rowLE := ⟨fun a b => le_total (dkey a.date) (dkey b.date)⟩

instance : IsTrans Row rowLE := ⟨fun _ _ _ hab hbc => le_trans hab hbc⟩

instance : IsAntisymm Row rowLT := ⟨fun _ _ hab hba => absurd hab (lt_asymm hba)⟩

/-- What `pd.to_datetime` leaves in the date column for one record (only
reached when no date string of the column is unparseable): a parsable date
becomes the date ordinal, a missing date becomes `NaT`. -/
def dateOfRaw : Option DateVal → Option Int
  | some (DateVal.parsable d) => some d
  | _ => none

/-- The row of `pd.DataFrame(recs)` for one record, after
`df["date"] = pd.to_datetime(df["date"])`. -/
def toRow (r : RawRecord) : Row :=
  { date := dateOfRaw r.date
    «open» := r.«open»
    high := r.high
    low := r.low
    close := r.close
    volume := r.volume }

/-- Embedding of `get_historical` (src/app.py lines 47-69), applied to the
response it observes: the HTTP status and the optional `"historical"` field of
the JSON body.  On a 200 response whose body has the `"historical"` key, it
builds the DataFrame, converts the date column (raising a `KeyError` when the
column does not exist — no record has a `date` key — and a `ValueError` when
some present date string is unparseable) and returns the rows sorted
ascending by date.  Every other case returns the empty DataFrame. -/
def get_historical (status : Nat) (data : Option (List RawRecord)) :
    Except String (List Row) :=
  if status = 200 then
    match data with
    | some recs =>
      if recs.all (fun r => r.date.isNone) then
        Except.error "KeyError: date"
      else if recs.any (fun r => r.date = some DateVal.unparsable) then
        Except.error "ValueError: unparseable date"
      else
        Except.ok (List.insertionSort rowLE (recs.map toRow))
    | none => Except.ok []
  else
    Except.ok []

/-- Embedding of `Series.rolling(window=w).mean()` on a column whose cells may
be missing (`NaN`): entry `i` is defined iff the window is full
(`i + 1 ≥ w`, pandas' default `min_periods = window`) and contains no missing
cell, and then is the arithmetic mean of the `w` cells ending at `i`. -/
def rolling_mean (w : Nat) (xs : List (Option Rat)) : List (Option Rat) :=
  (List.range xs.length).map fun i =>
    if i + 1 < w then none
    else
      let win := (xs.drop (i + 1 - w)).take w
      if win.all Option.isSome then
        some ((win.map (fun o => o.getD 0)).sum / (w : Rat))
      else none

/-- A fully populated OHLCV point, the clean shape the spec calls
`PricePoint`; the chart functions below consume series of these. -/
structure PricePoint where
  date : Int
  «open» : Rat
  high : Rat
  low : Rat
  close : Rat
  volume : Int
deriving Repr, DecidableEq, Inhabited

/-- The data series of the moving-average figure: the close line and the two
rolling means added by `create_moving_average_chart`. -/
structure MAChart where
  closeLine : List Rat
  MA20 : List (Option Rat)
  MA50 : List (Option Rat)
deriving Repr, DecidableEq

/-- Embedding of `create_moving_average_chart` (src/app.py lines 135-191):
`df["MA20"] = df["close"].rolling(window=20).mean()` and likewise `MA50` with
window 50. -/
def create_moving_average_chart (df : List PricePoint) : MAChart :=
  { closeLine := df.map PricePoint.close
    MA20 := rolling_mean 20 (df.map fun p => some p.close)
    MA50 := rolling_mean 50 (df.map fun p => some p.close) }

/-- The data series of the candlestick figure that depend on computation: the
per-point volume-bar colors and the volume heights. -/
structure CandlestickChart where
  colors : List String
  volumeBars : List Int
deriving Repr, DecidableEq

/-- Embedding of `create_candlestick_chart` (src/app.py lines 76-132); the
color list is `["red" if close < open else "green" for each point]`. -/
def create_candlestick_chart (df : List PricePoint) : CandlestickChart :=
  { colors := df.map fun p => if p.close < p.«open» then "red" else "green"
    volumeBars := df.map PricePoint.volume }

/-- Embedding of `DataFrame.tail(n)`: the last `n` rows, or all of them when
there are fewer than `n`. -/
def dfTail (n : Nat) (df : List α) : List α := df.drop (df.length - n)

/-- Everything `display_charts` derives from the historical series. -/
structure ChartBundle where
  last_6m : List PricePoint
  candlestick : CandlestickChart
  maChart : MAChart
  recentTable : List PricePoint
deriving Repr, DecidableEq

/-- Embedding of `display_charts` (src/app.py lines 221-243):
`last_6m = historical.tail(180)`, both charts are built from `last_6m`, and
the recent table is `last_6m.tail(10)`. -/
def display_charts (historical : List PricePoint) : ChartBundle :=
  let last_6m := dfTail 180 historical
  { last_6m := last_6m
    candlestick := create_candlestick_chart last_6m
    maChart := create_moving_average_chart last_6m
    recentTable := dfTail 10 last_6m }

/-- Whether a close cell holds a string; a string in a numeric column makes
the column `object`-typed, on which `rolling().mean()` raises a `DataError`. -/
def cellIsStr : Option Cell → Bool
  | some (Cell.str _) => true
  | _ => false

/-- Numeric value of a cell, `none` for `NaN`. -/
def cellVal : Option Cell → Option Rat
  | some (Cell.num q) => some q
  | _ => none

/-- Composition of the series builder with the moving-average computation:
feed the close column of `get_historical`'s output to
`rolling(window=w).mean()`, propagating the builder's errors and pandas'
`DataError` on a non-numeric close column. -/
def ma_of_payload (w status : Nat) (data : Option (List RawRecord)) :
    Except String (List (Option Rat)) :=
  match get_historical status data with
  | Except.error e => Except.error e
  | Except.ok rows =>
    if rows.any (fun r => cellIsStr r.close) then
      Except.error "DataError"
    else
      Except.ok (rolling_mean w (rows.map fun r => cellVal r.close))

/-- One record of the quote payload; a `none` field models a missing key. -/
structure RawQuote where
  price : Option Rat
  changesPercentage : Option Rat
  dayHigh : Option Rat
  dayLow : Option Rat
  volume : Option Int
  yearHigh : Option Rat
  yearLow : Option Rat
  marketCap : Option Rat
  pe : Option Rat
deriving Repr, DecidableEq

/-- What the P/E metric renders: a number, or the `"N/A"` sentinel. -/
inductive PEText where
  | value (q : Rat)
  | NA
deriving Repr, DecidableEq

/-- The metrics record `display_metrics` shows. -/
structure QuoteMetrics where
  price : Rat
  changesPercentage : Rat
  dayHigh : Rat
  dayLow : Rat
  volume : Int
  yearHigh : Rat
  yearLow : Rat
  marketCap : Rat
  pe : PEText
deriving Repr, DecidableEq

/-- Embedding of `display_metrics` (src/app.py lines 198-218): every metric is
read with `q.get(key, 0)`, except P/E which is `q.get("pe", "N/A")`. -/
def display_metrics (q : RawQuote) : QuoteMetrics :=
  { price := q.price.getD 0
    changesPercentage := q.changesPercentage.getD 0
    dayHigh := q.dayHigh.getD 0
    dayLow := q.dayLow.getD 0
    volume := q.volume.getD 0
    yearHigh := q.yearHigh.getD 0
    yearLow := q.yearLow.getD 0
    marketCap := q.marketCap.getD 0
    pe := match q.pe with
      | some v => PEText.value v
      | none => PEText.NA }

/-- Embedding of the quote dispatch of `main` (src/app.py lines 264-275):
`if quote and len(quote) > 0: display_metrics(quote[0]) else: st.error(...)`.
The argument is `none` when `get_quote` returned `None`; the result is `none`
when the app takes the error-message branch and shows no metrics. -/
def main_quote : Option (List RawQuote) → Option QuoteMetrics
  | some (q :: _) => some (display_metrics q)
  | _ => none

/-- A fully populated historical record with date ordinal `d` and close `c`
(the other numeric fields are arbitrary constants). -/
def mkRec (d : Int) (c : Rat) : RawRecord :=
  { date := some (DateVal.parsable d)
    «open» := some (Cell.num 1)
    high := some (Cell.num 2)
    low := some (Cell.num 1)
    close := some (Cell.num c)
    volume := some (Cell.num 100) }

/-- The spec's three-point example series, with closes `[10, 12, 11]`. -/
def ex3 : List PricePoint :=
  [ { date := 0, «open» := 10, high := 10, low := 10, close := 10, volume := 100 },
    { date := 1, «open» := 12, high := 12, low := 12, close := 12, volume := 100 },
    { date := 2, «open» := 11, high := 11, low := 11, close := 11, volume := 100 } ]

/-- A payload with two records on the same date. -/
def dupPayload : List RawRecord := [mkRec 5 10, mkRec 5 12]

/-- A record whose `close` key is missing. -/
def recNoClose : RawRecord :=
  { date := some (DateVal.parsable 0)
    «open» := some (Cell.num 1)
    high := some (Cell.num 2)
    low := some (Cell.num 1)
    close := none
    volume := some (Cell.num 100) }

/-- A record whose `close` value is a string that is not a number. -/
def recStrClose : RawRecord :=
  { date := some (DateVal.parsable 1)
    «open» := some (Cell.num 1)
    high := some (Cell.num 2)
    low := some (Cell.num 1)
    close := some (Cell.str "oops")
    volume := some (Cell.num 100) }

/-- A constant price point with close 1. -/
def basePoint : PricePoint :=
  { date := 0, «open» := 1, high := 1, low := 1, close := 1, volume := 100 }

/-- A 181-point series (one more than the recency cutoff). -/
def flatSeries : List PricePoint := List.replicate 181 basePoint

/-- 21 records: dates 0..18 with close 0, then two records on date 19 with
closes 0 and 20. -/
def permPayloadA : List RawRecord :=
  ((List.range 19).map fun k => mkRec k 0) ++ [mkRec 19 0, mkRec 19 20]

/-- The same multiset of records as `permPayloadA`, with the two date-19
records swapped. -/
def permPayloadB : List RawRecord :=
  ((List.range 19).map fun k => mkRec k 0) ++ [mkRec 19 20, mkRec 19 0]

/-- A quote record with every key missing. -/
def emptyQuote : RawQuote :=
  { price := none, changesPercentage := none, dayHigh := none, dayLow := none
    volume := none, yearHigh := none, yearLow := none, marketCap := none
    pe := none }

deriving instance DecidableEq for Except

/-! Helper lemmas. -/

theorem perm_all_congr {α : Type} {l₁ l₂ : List α} (h : List.Perm l₁ l₂)
    (p : α → Bool) : l₁.all p = l₂.all p := by
  apply Bool.eq_iff_iff.mpr
  simp only [List.all_eq_true]
  exact ⟨fun ha x hx => ha x (h.mem_iff.mpr hx), fun ha x hx => ha x (h.mem_iff.mp hx)⟩

theorem perm_any_congr {α : Type} {l₁ l₂ : List α} (h : List.Perm l₁ l₂)
    (p : α → Bool) : l₁.any p = l₂.any p := by
  apply Bool.eq_iff_iff.mpr
  simp only [List.any_eq_true]
  exact ⟨fun ⟨x, hx, hp⟩ => ⟨x, h.mem_iff.mp hx, hp⟩,
    fun ⟨x, hx, hp⟩ => ⟨x, h.mem_iff.mpr hx, hp⟩⟩

theorem rolling_mean_length (w : Nat) (xs : List (Option Rat)) :
    (rolling_mean w xs).length = xs.length := by
  simp [rolling_mean]

theorem rolling_mean_getD (w : Nat) (xs : List (Option Rat)) (i : Nat)
    (hi : i < xs.length) :
    (rolling_mean w xs).getD i none =
      if i + 1 < w then none
      else
        if ((xs.drop (i + 1 - w)).take w).all Option.isSome then
          some ((((xs.drop (i + 1 - w)).take w).map (fun o => o.getD 0)).sum / (w : Rat))
        else none := by
  unfold rolling_mean
  rw [List.getD_eq_getElem?_getD, List.getElem?_map, List.getElem?_range hi]
  rfl

theorem map_some_window (l : List Rat) (a w : Nat) :
    ((l.map some).drop a).take w = ((l.drop a).take w).map some := by
  rw [← List.map_drop, ← List.map_take]

theorem map_some_all_isSome (l : List Rat) : (l.map some).all Option.isSome = true := by
  induction l with
  | nil => rfl
  | cons a t ih => simp

theorem map_some_getD_zero (l : List Rat) :
    (l.map some).map (fun o => o.getD 0) = l := by
  induction l with
  | nil => rfl
  | cons a t ih => simpa using ih

theorem rolling_mean_some_getD (w : Nat) (l : List Rat) (i : Nat)
    (hi : i < l.length) :
    (rolling_mean w (l.map some)).getD i none =
      if i + 1 < w then none
      else some ((((l.drop (i + 1 - w)).take w).sum) / (w : Rat)) := by
  rw [rolling_mean_getD w _ i (by simpa using hi)]
  by_cases h : i + 1 < w
  · rw [if_pos h, if_pos h]
  · rw [if_neg h, if_neg h, map_some_window,
      if_pos (map_some_all_isSome ((l.drop (i + 1 - w)).take w)),
      map_some_getD_zero]

theorem dkey_injective : Function.Injective dkey := by
  intro a b h
  cases a <;> cases b <;> simp_all [dkey]

theorem sorted_rowLT_of_nodup {l : List Row} (hs : List.Sorted rowLE l)
    (hnd : (l.map Row.date).Nodup) : List.Sorted rowLT l := by
  have hs' : l.Pairwise rowLE := hs
  have hnd' : (l.map Row.date).Pairwise (fun a b => a ≠ b) := hnd
  have hp : l.Pairwise (fun a b : Row => a.date ≠ b.date) := List.pairwise_map.mp hnd'
  refine List.Pairwise.imp ?_ (hs'.and hp)
  intro a b hab
  exact lt_of_le_of_ne hab.1 fun hd => hab.2 (dkey_injective hd)

theorem insertionSort_nodup_dates {l : List Row} (hnd : (l.map Row.date).Nodup) :
    ((List.insertionSort rowLE l).map Row.date).Nodup :=
  (((List.perm_insertionSort rowLE l).map Row.date).nodup_iff).mpr hnd

theorem insertionSort_eq_of_perm {l₁ l₂ : List Row} (hp : List.Perm l₁ l₂)
    (hnd : (l₁.map Row.date).Nodup) :
    List.insertionSort rowLE l₁ = List.insertionSort rowLE l₂ := by
  have hnd₂ : (l₂.map Row.date).Nodup := ((hp.map Row.date).nodup_iff).mp hnd
  exact List.eq_of_perm_of_sorted
    (((List.perm_insertionSort rowLE l₁).trans hp).trans
      (List.perm_insertionSort rowLE l₂).symm)
    (sorted_rowLT_of_nodup (List.sorted_insertionSort rowLE l₁)
      (insertionSort_nodup_dates hnd))
    (sorted_rowLT_of_nodup (List.sorted_insertionSort rowLE l₂)
      (insertionSort_nodup_dates hnd₂))

theorem get_historical_200_some (recs : List RawRecord) :
    get_historical 200 (some recs) =
      if recs.all (fun r => r.date.isNone) then Except.error "KeyError: date"
      else if recs.any (fun r => r.date = some DateVal.unparsable) then
        Except.error "ValueError: unparseable date"
      else Except.ok (List.insertionSort rowLE (recs.map toRow)) := rfl

theorem map_toRow_nodup {recs : List RawRecord}
    (hnd : (recs.map RawRecord.date).Nodup)
    (hnu : ∀ r ∈ recs, r.date ≠ some DateVal.unparsable) :
    ((recs.map toRow).map Row.date).Nodup := by
  rw [List.map_map]
  have hrw : recs.map (Row.date ∘ toRow) = (recs.map RawRecord.date).map dateOfRaw := by
    rw [List.map_map]
    rfl
  rw [hrw]
  refine List.Nodup.map_on ?_ hnd
  intro x hx y hy hxy
  have hx' : x ≠ some DateVal.unparsable := by
    obtain ⟨r, hr, hre⟩ := List.mem_map.mp hx
    exact hre ▸ hnu r hr
  have hy' : y ≠ some DateVal.unparsable := by
    obtain ⟨r, hr, hre⟩ := List.mem_map.mp hy
    exact hre ▸ hnu r hr
  cases x with
  | none =>
    cases y with
    | none => rfl
    | some yv =>
      cases yv with
      | parsable d => simp [dateOfRaw] at hxy
      | unparsable => exact absurd rfl hy'
  | some xv =>
    cases xv with
    | parsable d =>
      cases y with
      | none => simp [dateOfRaw] at hxy
      | some yv =>
        cases yv with
        | parsable e => simp [dateOfRaw] at hxy; rw [hxy]
        | unparsable => exact absurd rfl hy'
    | unparsable => exact absurd rfl hx'

/-! Claim theorems. -/

/-- C1: for every price series and every window `w ≥ 1` (in the source,
`w ∈ {20, 50}`), the moving-average series of `create_moving_average_chart`
has the length of the input, its entry at index `i` is undefined when
`i < w - 1` and otherwise is the arithmetic mean (sum divided by the window
width, the slice having exactly `w` elements) of the closes at indices
`i - w + 1 .. i`; in particular closes `[10, 12, 11]` with window 2 give
`[undefined, 11, 11.5]`. -/
theorem rolling_mean_spec (s : List PricePoint) (w i : Nat) (hw : 1 ≤ w)
    (hi : i < s.length) :
    (create_moving_average_chart s).MA20 = rolling_mean 20 (s.map fun p => some p.close) ∧
    (create_moving_average_chart s).MA50 = rolling_mean 50 (s.map fun p => some p.close) ∧
    (rolling_mean w (s.map fun p => some p.close)).length = s.length ∧
    (i < w - 1 → (rolling_mean w (s.map fun p => some p.close)).getD i none = none) ∧
    (w - 1 ≤ i →
      (((s.map PricePoint.close).drop (i + 1 - w)).take w).length = w ∧
      (rolling_mean w (s.map fun p => some p.close)).getD i none =
        some ((((s.map PricePoint.close).drop (i + 1 - w)).take w).sum / (w : Rat))) ∧
    rolling_mean 2 (ex3.map fun p => some p.close) = [none, some 11, some (23/2)] := by
  have hbridge : (s.map fun p => some p.close) = (s.map PricePoint.close).map some := by
    rw [List.map_map]
    rfl
  have hlen : i < (s.map PricePoint.close).length := by simpa using hi
  refine ⟨rfl, rfl, ?_, ?_, ?_, ?_⟩
  · rw [rolling_mean_length, List.length_map]
  · intro hlt
    rw [hbridge, rolling_mean_some_getD w _ i hlen, if_pos (by omega : i + 1 < w)]
  · intro hge
    refine ⟨?_, ?_⟩
    · rw [List.length_take, List.length_drop, List.length_map]
      omega
    · rw [hbridge, rolling_mean_some_getD w _ i hlen,
        if_neg (by omega : ¬ i + 1 < w)]
  · with_unfolding_all decide

/-- Witness for C1: the spec's example, closes `[10, 12, 11]` with
window 2. -/
theorem rolling_mean_spec_witness :
    rolling_mean 2 (ex3.map fun p => some p.close) = [none, some 11, some (23/2)] :=
  (rolling_mean_spec ex3 2 1 (by decide) (by decide)).2.2.2.2.2

/-- C2 counterexample: a non-empty payload with the series field present and
two records on the same date.  `sort_values` never deduplicates, so the
builder's output has a duplicate date and is not strictly ascending. -/
theorem sort_keeps_duplicate_dates :
    dupPayload ≠ [] ∧
    get_historical 200 (some dupPayload) =
      Except.ok [toRow (mkRec 5 10), toRow (mkRec 5 12)] ∧
    ¬ List.Sorted rowLT [toRow (mkRec 5 10), toRow (mkRec 5 12)] ∧
    ¬ ([toRow (mkRec 5 10), toRow (mkRec 5 12)].map Row.date).Nodup := by
  refine ⟨by decide, by decide, ?_, by decide⟩
  intro h
  have := List.rel_of_sorted_cons h _ (List.mem_singleton.mpr rfl)
  exact absurd this (by decide)

/-- C2 amended: the builder's output is (weakly) ascending by date; it is
strictly ascending with pairwise-distinct dates whenever the input records'
dates are pairwise distinct. -/
theorem get_historical_sorted (recs : List RawRecord) (rows : List Row)
    (h : get_historical 200 (some recs) = Except.ok rows) :
    List.Sorted rowLE rows ∧
    ((recs.map RawRecord.date).Nodup →
      List.Sorted rowLT rows ∧ (rows.map Row.date).Nodup) := by
  rw [get_historical_200_some] at h
  by_cases h1 : recs.all (fun r => r.date.isNone)
  · rw [if_pos h1] at h
    exact absurd h (by simp)
  · rw [if_neg h1] at h
    by_cases h2 : recs.any (fun r => r.date = some DateVal.unparsable)
    · rw [if_pos h2] at h
      exact absurd h (by simp)
    · rw [if_neg h2] at h
      have hrows : rows = List.insertionSort rowLE (recs.map toRow) := by
        injection h with h'
        exact h'.symm
      subst hrows
      refine ⟨List.sorted_insertionSort rowLE _, fun hnd => ?_⟩
      have hnu : ∀ r ∈ recs, r.date ≠ some DateVal.unparsable := by
        simpa using h2
      have hmapnd := map_toRow_nodup hnd hnu
      exact ⟨sorted_rowLT_of_nodup (List.sorted_insertionSort rowLE _)
          (insertionSort_nodup_dates hmapnd),
        insertionSort_nodup_dates hmapnd⟩

/-- Witness for C2 (amended): a two-record payload given in descending date
order comes out strictly ascending and duplicate-free. -/
theorem get_historical_sorted_witness :
    List.Sorted rowLT [toRow (mkRec 0 12), toRow (mkRec 1 10)] ∧
    ([toRow (mkRec 0 12), toRow (mkRec 1 10)].map Row.date).Nodup :=
  (get_historical_sorted [mkRec 1 10, mkRec 0 12]
    [toRow (mkRec 0 12), toRow (mkRec 1 10)] (by decide)).2 (by decide)

/-- C3: the volume-bar color at index `i` is `"red"` exactly when
`close < open` at that point and `"green"` otherwise (so `close = open` gives
`"green"`), and it depends on point `i` alone. -/
theorem volume_direction_spec (s : List PricePoint) (i : Nat) (hi : i < s.length) :
    (create_candlestick_chart s).colors.length = s.length ∧
    (create_candlestick_chart s).colors.getD i "" =
      (if (s.getD i default).close < (s.getD i default).«open» then "red" else "green") ∧
    ((s.getD i default).close = (s.getD i default).«open» →
      (create_candlestick_chart s).colors.getD i "" = "green") ∧
    ∀ t : List PricePoint, i < t.length → t.getD i default = s.getD i default →
      (create_candlestick_chart t).colors.getD i "" =
        (create_candlestick_chart s).colors.getD i "" := by
  have key : ∀ (u : List PricePoint), i < u.length →
      (create_candlestick_chart u).colors.getD i "" =
        (if (u.getD i default).close < (u.getD i default).«open» then "red" else "green") := by
    intro u hu
    show (u.map fun p => if p.close < p.«open» then "red" else "green").getD i "" = _
    rw [List.getD_eq_getElem?_getD, List.getElem?_map, List.getElem?_eq_getElem hu,
      List.getD_eq_getElem?_getD, List.getElem?_eq_getElem hu]
    rfl
  refine ⟨by simp [create_candlestick_chart], key s hi, ?_, ?_⟩
  · intro heq
    rw [key s hi, heq, if_neg (lt_irrefl _)]
  · intro t ht hagree
    rw [key t ht, key s hi, hagree]

/-- Witness for C3: the third point of the example series has
`close = open = 11`, and its volume bar is green. -/
theorem volume_direction_spec_witness :
    (create_candlestick_chart ex3).colors.getD 2 "" = "green" :=
  (volume_direction_spec ex3 2 (by decide)).2.2.1 (by decide)

/-- C4: the recent charting window of `display_charts` is
`historical.tail(180)`: the length-`min 180 |s|` suffix of the series in the
same order, never longer than 180 and equal to the whole series when the
series has at most 180 points. -/
theorem recent_window_spec (s : List PricePoint) :
    (display_charts s).last_6m = dfTail 180 s ∧
    (dfTail 180 s).length = min 180 s.length ∧
    s.take (s.length - 180) ++ dfTail 180 s = s ∧
    (dfTail 180 s).length ≤ 180 ∧
    (s.length ≤ 180 → dfTail 180 s = s) := by
  have hproj : (display_charts s).last_6m = dfTail 180 s := by
    simp [display_charts]
  have hlen : (dfTail 180 s).length = min 180 s.length := by
    rw [dfTail, List.length_drop]
    omega
  refine ⟨hproj, hlen, List.take_append_drop _ s, ?_, ?_⟩
  · rw [hlen]
    omega
  · intro hle
    rw [dfTail, Nat.sub_eq_zero_of_le hle, List.drop_zero]

/-- Witness for C4: the three-point example series is returned whole. -/
theorem recent_window_spec_witness :
    dfTail 180 ex3 = ex3 :=
  (recent_window_spec ex3).2.2.2.2 (by decide)

/-- C5: a payload without the series field yields the empty series rather
than an error, and on a zero-length price series every downstream stage
(recent window, both moving averages, volume directions) yields zero-length
output with no error. -/
theorem empty_inputs_spec :
    get_historical 200 none = Except.ok [] ∧
    dfTail 180 ([] : List PricePoint) = [] ∧
    display_charts [] =
      { last_6m := []
        candlestick := { colors := [], volumeBars := [] }
        maChart := { closeLine := [], MA20 := [], MA50 := [] }
        recentTable := [] } ∧
    rolling_mean 20 [] = [] ∧
    rolling_mean 50 [] = [] ∧
    create_moving_average_chart [] = { closeLine := [], MA20 := [], MA50 := [] } ∧
    create_candlestick_chart [] = { colors := [], volumeBars := [] } :=
  ⟨rfl, rfl, rfl, rfl, rfl, rfl, rfl⟩

/-- C6 counterexample: a record missing its `close` key, and one whose
`close` is an unparseable string, both pass through `get_historical` without
any error and appear in the output as partial rows — the claimed `ParseError`
is never raised. -/
theorem missing_field_partial_point :
    get_historical 200 (some [recNoClose]) = Except.ok [toRow recNoClose] ∧
    (toRow recNoClose).close = none ∧
    get_historical 200 (some [recStrClose]) = Except.ok [toRow recStrClose] ∧
    (toRow recStrClose).close = some (Cell.str "oops") :=
  ⟨by decide, rfl, by decide, rfl⟩

/-- C6 amended: missing or unparseable numeric fields never make the builder
fail; whenever the date column exists and every present date string parses,
the builder succeeds and every record — partial or not — appears in the
output, which has the input's length.  (Only date problems raise.) -/
theorem get_historical_keeps_partial_records (recs : List RawRecord)
    (h1 : ¬ recs.all (fun r => r.date.isNone))
    (h2 : ¬ recs.any (fun r => r.date = some DateVal.unparsable)) :
    get_historical 200 (some recs) =
      Except.ok (List.insertionSort rowLE (recs.map toRow)) ∧
    (List.insertionSort rowLE (recs.map toRow)).length = recs.length ∧
    ∀ r ∈ recs, toRow r ∈ List.insertionSort rowLE (recs.map toRow) := by
  refine ⟨?_, ?_, ?_⟩
  · rw [get_historical_200_some, if_neg h1, if_neg h2]
  · rw [(List.perm_insertionSort rowLE _).length_eq, List.length_map]
  · intro r hr
    rw [List.mem_insertionSort]
    exact List.mem_map_of_mem toRow hr

/-- Witness for C6 (amended): the two malformed records of the
counterexample are both kept. -/
theorem get_historical_keeps_partial_records_witness :
    get_historical 200 (some [recNoClose, recStrClose]) =
      Except.ok (List.insertionSort rowLE ([recNoClose, recStrClose].map toRow)) ∧
    (List.insertionSort rowLE ([recNoClose, recStrClose].map toRow)).length = 2 :=
  ⟨(get_historical_keeps_partial_records [recNoClose, recStrClose]
      (by decide) (by decide)).1,
    (get_historical_keeps_partial_records [recNoClose, recStrClose]
      (by decide) (by decide)).2.1⟩

/-- C7 counterexample: on the empty quote payload `[]`, `main` takes the
error-message branch (`if quote and len(quote) > 0` is false) and builds no
metrics record at all — not a record of defaults. -/
theorem empty_quote_no_record :
    main_quote (some []) = none ∧
    main_quote (some []) ≠ some
      { price := 0, changesPercentage := 0, dayHigh := 0, dayLow := 0
        volume := 0, yearHigh := 0, yearLow := 0, marketCap := 0
        pe := PEText.NA } :=
  ⟨rfl, by decide⟩

/-- C7 amended: for every non-empty list quote payload, the first element is
displayed and every missing key falls back to its default (0 for the numeric
metrics, the `"N/A"` sentinel for P/E) with no failure; the empty payload `[]`
produces no metrics record — the app shows an error message instead (still no
exception). -/
theorem quote_defaults_spec (q : RawQuote) (rest : List RawQuote) :
    main_quote (some (q :: rest)) = some (display_metrics q) ∧
    (q.price = none → (display_metrics q).price = 0) ∧
    (q.changesPercentage = none → (display_metrics q).changesPercentage = 0) ∧
    (q.dayHigh = none → (display_metrics q).dayHigh = 0) ∧
    (q.dayLow = none → (display_metrics q).dayLow = 0) ∧
    (q.volume = none → (display_metrics q).volume = 0) ∧
    (q.yearHigh = none → (display_metrics q).yearHigh = 0) ∧
    (q.yearLow = none → (display_metrics q).yearLow = 0) ∧
    (q.marketCap = none → (display_metrics q).marketCap = 0) ∧
    (q.pe = none → (display_metrics q).pe = PEText.NA) ∧
    main_quote (some []) = none := by
  refine ⟨rfl, ?_, ?_, ?_, ?_, ?_, ?_, ?_, ?_, ?_, rfl⟩ <;>
    · intro h
      simp [display_metrics, h]

/-- Witness for C7 (amended): a one-record payload whose record has every key
missing displays all defaults. -/
theorem quote_defaults_spec_witness :
    main_quote (some [emptyQuote]) = some (display_metrics emptyQuote) ∧
    (display_metrics emptyQuote).price = 0 ∧
    (display_metrics emptyQuote).pe = PEText.NA :=
  ⟨(quote_defaults_spec emptyQuote []).1,
    (quote_defaults_spec emptyQuote []).2.1 rfl,
    (quote_defaults_spec emptyQuote []).2.2.2.2.2.2.2.2.2.1 rfl⟩

set_option maxRecDepth 40000 in
/-- C8: the charted moving averages are computed over the 180-point recent
window alone: the chart of `display_charts` equals
`create_moving_average_chart` of the window, within the window the entry at
`i < w - 1` is undefined even though the full history holds more than 180
points, and on a concrete 181-point series the charted MA20 differs from the
restriction of the full-history MA20 to the last 180 points. -/
theorem windowed_ma_spec (s : List PricePoint) (w i : Nat)
    (hs : 180 < s.length) (hw : w = 20 ∨ w = 50) (hi : i < w - 1) :
    (display_charts s).maChart = create_moving_average_chart (dfTail 180 s) ∧
    (display_charts s).maChart.MA20 =
      rolling_mean 20 ((dfTail 180 s).map fun p => some p.close) ∧
    (display_charts s).maChart.MA50 =
      rolling_mean 50 ((dfTail 180 s).map fun p => some p.close) ∧
    (dfTail 180 s).length = 180 ∧
    (rolling_mean w ((dfTail 180 s).map fun p => some p.close)).getD i none = none ∧
    (display_charts flatSeries).maChart.MA20 ≠
      dfTail 180 (rolling_mean 20 (flatSeries.map fun p => some p.close)) := by
  have hproj : (display_charts s).maChart = create_moving_average_chart (dfTail 180 s) := by
    simp [display_charts]
  have hlen : (dfTail 180 s).length = 180 := by
    rw [dfTail, List.length_drop]
    omega
  refine ⟨hproj, by rw [hproj]; simp [create_moving_average_chart],
    by rw [hproj]; simp [create_moving_average_chart], hlen, ?_, ?_⟩
  · have hiw : i < 180 := by omega
    have hi' : i < ((dfTail 180 s).map fun p => some p.close).length := by
      rw [List.length_map, hlen]
      exact hiw
    have hbridge : ((dfTail 180 s).map fun p => some p.close) =
        ((dfTail 180 s).map PricePoint.close).map some := by
      rw [List.map_map]
      rfl
    rw [hbridge, rolling_mean_some_getD w _ i (by simpa using hi'),
      if_pos (by omega : i + 1 < w)]
  · have hA : (display_charts flatSeries).maChart.MA20.getD 18 none = none := by
      with_unfolding_all decide
    have hB : (dfTail 180 (rolling_mean 20 (flatSeries.map fun p => some p.close))).getD
        18 none = some 1 := by
      with_unfolding_all decide
    intro h
    rw [h] at hA
    exact Option.noConfusion (hA.symm.trans hB)

set_option maxRecDepth 40000 in
/-- Witness for C8: the 181-point constant series, window 20, index 5. -/
theorem windowed_ma_spec_witness :
    (rolling_mean 20 ((dfTail 180 flatSeries).map fun p => some p.close)).getD 5 none
      = none :=
  (windowed_ma_spec flatSeries 20 5 (by decide) (Or.inl rfl) (by decide)).2.2.2.2.1

/-- C9 counterexample: a 21-record payload with two records on the same date
(closes 0 and 20).  Swapping those two records permutes the payload but
changes the moving-average series computed after sorting, because the sort
keeps equal-date records in input order. -/
theorem ma_not_perm_invariant :
    List.Perm permPayloadA permPayloadB ∧
    ma_of_payload 20 200 (some permPayloadA) ≠ ma_of_payload 20 200 (some permPayloadB) :=
  ⟨by decide, by with_unfolding_all decide⟩

/-- C9 amended: when the records' dates are pairwise distinct, the series
builder — and hence the moving-average series computed from its output — is
invariant under every permutation of the payload. -/
theorem ma_perm_invariant (w : Nat) (recs recs' : List RawRecord)
    (hperm : List.Perm recs recs') (hnd : (recs.map RawRecord.date).Nodup) :
    get_historical 200 (some recs) = get_historical 200 (some recs') ∧
    ma_of_payload w 200 (some recs) = ma_of_payload w 200 (some recs') := by
  have hgh : get_historical 200 (some recs) = get_historical 200 (some recs') := by
    rw [get_historical_200_some, get_historical_200_some,
      perm_all_congr hperm, perm_any_congr hperm]
    by_cases h1 : recs'.all (fun r => r.date.isNone)
    · rw [if_pos h1, if_pos h1]
    · rw [if_neg h1, if_neg h1]
      by_cases h2 : recs'.any (fun r => r.date = some DateVal.unparsable)
      · rw [if_pos h2, if_pos h2]
      · rw [if_neg h2, if_neg h2]
        have hnu : ∀ r ∈ recs, r.date ≠ some DateVal.unparsable := by
          have h2' : ∀ r ∈ recs', r.date ≠ some DateVal.unparsable := by
            simpa using h2
          exact fun r hr => h2' r (hperm.mem_iff.mp hr)
        exact congrArg Except.ok
          (insertionSort_eq_of_perm (hperm.map toRow) (map_toRow_nodup hnd hnu))
  refine ⟨hgh, ?_⟩
  unfold ma_of_payload
  rw [hgh]

/-- Witness for C9 (amended): a two-record payload with distinct dates and
its swap give the same builder output and the same MA series. -/
theorem ma_perm_invariant_witness :
    get_historical 200 (some [mkRec 1 10, mkRec 0 12]) =
      get_historical 200 (some [mkRec 0 12, mkRec 1 10]) ∧
    ma_of_payload 20 200 (some [mkRec 1 10, mkRec 0 12]) =
      ma_of_payload 20 200 (some [mkRec 0 12, mkRec 1 10]) :=
  ma_perm_invariant 20 [mkRec 1 10, mkRec 0 12] [mkRec 0 12, mkRec 1 10]
    (by decide) (by decide)

/-- C10: `get_historical` returns the empty series both on a non-200 response
(whatever the body) and on a 200 response whose body lacks the `"historical"`
key, raising in neither case — the two situations are indistinguishable at
its interface. -/
theorem fetch_failure_empty (status : Nat) (data : Option (List RawRecord))
    (h : status ≠ 200) :
    get_historical status data = Except.ok [] ∧
    get_historical status none = Except.ok [] ∧
    get_historical 200 none = Except.ok [] := by
  refine ⟨?_, ?_, rfl⟩ <;>
    · rw [get_historical.eq_def, if_neg h]

/-- Witness for C10: a 404 response with a non-trivial body. -/
theorem fetch_failure_empty_witness :
    get_historical 404 (some [recNoClose]) = Except.ok [] ∧
    get_historical 404 none = Except.ok [] ∧
    get_historical 200 none = Except.ok [] :=
  fetch_failure_empty 404 (some [recNoClose]) (by decide)
